import Mathlib

/-!
Verification of the Legion Python binding (`src/bindings/python/legion.py`)
against its design specification.

The binding is shallowly embedded: the native runtime's entry points are
modelled as an environment supplying their results (fallible calls return
`Except PyErr _`, mirroring Python exception propagation), and each binding
operation is a pure Lean function that returns the ordered trace of native
calls it made, the updated registry state, and its outcome.  Machine-level
handles (task descriptors, contexts, runtimes, physical regions, constraint
sets) are opaque to the binding and modelled as `Nat`.
-/

namespace LegionPy

/-- A Python exception, as far as the binding can observe it. -/
inductive PyErr where
  /-- `AssertionError` raised by an `assert` statement in the binding. -/
  | assertionError : PyErr
  /-- An exception raised by the user task body, tagged by an opaque code. -/
  | bodyError (e : Nat) : PyErr
  /-- A failure reported by a native entry point, tagged by an opaque code. -/
  | nativeError (e : Nat) : PyErr
deriving DecidableEq, Repr

/-- Outcome of invoking a Python task body: it either returns a value
(`none` models Python's `None`) or raises an exception. -/
inductive BodyResult where
  | returns (v : Option Nat) : BodyResult
  | raises (e : Nat) : BodyResult
deriving DecidableEq, Repr

/-- A host-language task body (`body` in `legion.py`): a callable with a
stable declaring module and name (`body.__module__`, `body.__name__`),
invoked with the task descriptor, region list, context and runtime. -/
structure TaskBody where
  module : String
  name : String
  fn : Nat → List Nat → Nat → Nat → BodyResult

/-- The outputs that `legion_task_preamble` (legion.py line 54) writes into
the out-parameters `task`, `raw_regions`, `num_regions`, `context`,
`runtime`.  `rawRegions i` models the native array access
`raw_regions[0][i]`. -/
structure PreambleOut where
  task : Nat
  rawRegions : Nat → Nat
  numRegions : Nat
  context : Nat
  runtime : Nat

/-- Events of one wrapper invocation: the native calls and the call into
the task body, in program order. -/
inductive WEvent where
  /-- `c.legion_task_preamble(arg_ptr, arg_size, proc, ...)` (line 54). -/
  | preamble (args : List Nat) (proc : Nat) : WEvent
  /-- `body(task[0], regions, context[0], runtime[0])` (line 62). -/
  | bodyCall (task : Nat) (regions : List Nat) (context runtime : Nat) : WEvent
  /-- `c.legion_task_postamble(runtime[0], context[0], ffi.NULL, 0)`
  (line 65); `resultPtr = 0` models `ffi.NULL`. -/
  | postamble (runtime context resultPtr resultLen : Nat) : WEvent
deriving DecidableEq, Repr

/-- `True` exactly on postamble events. -/
def WEvent.isPostamble : WEvent → Bool
  | .postamble _ _ _ _ => true
  | _ => false

/-- The region list built by the loop at legion.py lines 58-60:
`for i in xrange(num_regions[0]): regions.append(raw_regions[0][i])`. -/
def builtRegions (pre : PreambleOut) : List Nat :=
  (List.range pre.numRegions).map pre.rawRegions

/-- `Task.make_wrapper` (legion.py lines 44-66).  Given the preamble's
outputs `pre`, the serialized argument buffer `args` and the processor
handle `proc`, runs the wrapper body: calls the preamble, materializes the
region list in index order, invokes the task body with
`(task[0], regions, context[0], runtime[0])`, asserts the returned value
is `None` (line 63), and calls the postamble with a null result pointer
and zero length (line 65).  Returns the event trace and the outcome: an
exception raised by the body or by the failing assert propagates out of
the wrapper and skips the postamble. -/
def make_wrapper (body : TaskBody) (pre : PreambleOut) (args : List Nat)
    (proc : Nat) : List WEvent × Except PyErr Unit :=
  let regions := builtRegions pre
  match body.fn pre.task regions pre.context pre.runtime with
  | .raises e =>
      ([.preamble args proc, .bodyCall pre.task regions pre.context pre.runtime],
       .error (.bodyError e))
  | .returns none =>
      ([.preamble args proc, .bodyCall pre.task regions pre.context pre.runtime,
        .postamble pre.runtime pre.context 0 0],
       .ok ())
  | .returns (some _) =>
      ([.preamble args proc, .bodyCall pre.task regions pre.context pre.runtime],
       .error .assertionError)

/-- The task config options record built at legion.py lines 78-81:
`options[0].leaf = False; options[0].inner = False;
options[0].idempotent = False`. -/
structure ConfigOptions where
  leaf : Bool
  inner : Bool
  idempotent : Bool
deriving DecidableEq, Repr

/-- The sentinel task id passed at legion.py line 85:
`ffi.cast("legion_task_id_t", -1)  # AUTO_GENERATE_ID`.  The binding's
contract is only that this sentinel, and never a caller-chosen id, is
passed; the C-level cast to an unsigned integer is left to the native
side. -/
def AUTO_GENERATE_ID : Int := -1

/-- The argument tuple passed to
`c.legion_runtime_register_task_variant_python_source`
(legion.py lines 83-94), field per positional argument. -/
structure RegisterVariantArgs where
  runtime : Nat
  task_id : Int
  variant_name : String
  globalFlag : Bool
  execution_constraints : Nat
  layout_constraints : Nat
  options : ConfigOptions
  module_name : String
  function_name : String
  userdata : Nat
  userlen : Nat
deriving DecidableEq, Repr

/-- Events of one `Task.register` call: each native call attempted, in
program order, recording the arguments it was invoked with.  A call that
raises still appears in the trace (it was made); calls after it do not. -/
inductive REvent where
  /-- `c.legion_execution_constraint_set_create()` (line 71). -/
  | execCreate : REvent
  /-- `c.legion_execution_constraint_set_add_processor_constraint(ec, c.PY_PROC)`
  (lines 72-73). -/
  | addProc (constraints proc : Nat) : REvent
  /-- `c.legion_task_layout_constraint_set_create()` (line 75). -/
  | layoutCreate : REvent
  /-- `c.legion_runtime_get_runtime()` (line 84). -/
  | getRuntime : REvent
  /-- `c.legion_runtime_register_task_variant_python_source(...)` (line 83). -/
  | registerVariant (a : RegisterVariantArgs) : REvent
  /-- `c.legion_execution_constraint_set_destroy(ec)` (line 96). -/
  | execDestroy (constraints : Nat) : REvent
  /-- `c.legion_task_layout_constraint_set_destroy(lc)` (line 97). -/
  | layoutDestroy (constraints : Nat) : REvent
deriving DecidableEq, Repr

/-- `True` exactly on the two constraint-set destroy events. -/
def REvent.isDestroy : REvent → Bool
  | .execDestroy _ => true
  | .layoutDestroy _ => true
  | _ => false

/-- The native environment seen by `Task.register`: the result each native
entry point would produce if called, where `.error e` means the call
raises a Python exception `e`.  `pyProc` is the runtime-provided constant
`c.PY_PROC` naming the Python-capable processor kind. -/
structure RegEnv where
  pyProc : Nat
  execCreate : Except PyErr Nat
  addProc : Nat → Nat → Except PyErr Unit
  layoutCreate : Except PyErr Nat
  getRuntime : Except PyErr Nat
  registerVariant : RegisterVariantArgs → Except PyErr Nat
  execDestroy : Nat → Except PyErr Unit
  layoutDestroy : Nat → Except PyErr Unit

/-- A `Task` object (legion.py lines 36-41).  `Task` defines neither
`__eq__` nor `__hash__`, so as a dict key it compares by object identity;
`oid` models `id(self)`, unique per live object. -/
structure Task where
  oid : Nat
  body : TaskBody

/-- The registry `_local_tasks` (legion.py line 35): a process-wide dict
from `Task` objects (by identity) to the native task id, modelled as an
association list keyed by object id.  Its initial value is `{}`. -/
def _local_tasks : List (Nat × Nat) := []

/-- Result of one `Task.register` call: the native-call trace, the
registry after the call, and the returned task id or the propagated
exception. -/
structure RegisterResult where
  trace : List REvent
  registry : List (Nat × Nat)
  result : Except PyErr Nat
deriving Repr

/-- The argument tuple built for the register-variant call at legion.py
lines 83-94: runtime handle from `legion_runtime_get_runtime`, the
`AUTO_GENERATE_ID` sentinel instead of a caller-chosen id, the variant
name `'%s.%s' % (module, name)`, `global=False`, the two constraint-set
handles, the all-false options record, the module and function names, and
`(ffi.NULL, 0)` user data. -/
def mkArgs (t : Task) (rt ec lc : Nat) : RegisterVariantArgs :=
  { runtime := rt
    task_id := AUTO_GENERATE_ID
    variant_name := t.body.module ++ "." ++ t.body.name
    globalFlag := false
    execution_constraints := ec
    layout_constraints := lc
    options := ⟨false, false, false⟩
    module_name := t.body.module
    function_name := t.body.name
    userdata := 0
    userlen := 0 }

/-- `Task.register` (legion.py lines 68-100), straight-line Python with no
`try`/`finally`: asserts `self not in _local_tasks` (line 69), then makes
the native calls in program order — execution-constraint-set create, add
processor constraint, layout-constraint-set create, then (as part of
evaluating the arguments of line 83) `legion_runtime_get_runtime`, then
`register_task_variant_python_source` with options all-false, the
`AUTO_GENERATE_ID` sentinel, variant name `'%s.%s' % (module, name)` and
`global=False`, then the two constraint-set destroys — and finally stores
`_local_tasks[self] = task_id` and returns `task_id`.  Any call that
raises propagates immediately, skipping everything after it. -/
def Task.register (t : Task) (env : RegEnv) (reg : List (Nat × Nat)) :
    RegisterResult :=
  if t.oid ∈ reg.map Prod.fst then
    ⟨[], reg, .error .assertionError⟩
  else
    match env.execCreate with
    | .error e => ⟨[.execCreate], reg, .error e⟩
    | .ok ec =>
      match env.addProc ec env.pyProc with
      | .error e => ⟨[.execCreate, .addProc ec env.pyProc], reg, .error e⟩
      | .ok _ =>
        match env.layoutCreate with
        | .error e =>
            ⟨[.execCreate, .addProc ec env.pyProc, .layoutCreate], reg, .error e⟩
        | .ok lc =>
          match env.getRuntime with
          | .error e =>
              ⟨[.execCreate, .addProc ec env.pyProc, .layoutCreate, .getRuntime],
               reg, .error e⟩
          | .ok rt =>
            let a : RegisterVariantArgs := mkArgs t rt ec lc
            match env.registerVariant a with
            | .error e =>
                ⟨[.execCreate, .addProc ec env.pyProc, .layoutCreate, .getRuntime,
                  .registerVariant a], reg, .error e⟩
            | .ok tid =>
              match env.execDestroy ec with
              | .error e =>
                  ⟨[.execCreate, .addProc ec env.pyProc, .layoutCreate, .getRuntime,
                    .registerVariant a, .execDestroy ec], reg, .error e⟩
              | .ok _ =>
                match env.layoutDestroy lc with
                | .error e =>
                    ⟨[.execCreate, .addProc ec env.pyProc, .layoutCreate, .getRuntime,
                      .registerVariant a, .execDestroy ec, .layoutDestroy lc],
                     reg, .error e⟩
                | .ok _ =>
                    ⟨[.execCreate, .addProc ec env.pyProc, .layoutCreate, .getRuntime,
                      .registerVariant a, .execDestroy ec, .layoutDestroy lc],
                     (t.oid, tid) :: reg, .ok tid⟩

/-- Result of one call of the `task` decorator: the freshly constructed
`Task` object, the register call's trace/registry/outcome, and the next
fresh object id. -/
structure TaskCallResult where
  t : Task
  trace : List REvent
  registry : List (Nat × Nat)
  result : Except PyErr Nat
  nextOid : Nat

/-- The decorator `task` (legion.py lines 102-105): constructs a fresh
`Task` object for `body` (fresh object identity `nextOid`, since the
previous `Task` objects are retained as registry keys) and calls its
`register` method; an exception from `register` propagates.  On success
the decorator returns `t.wrapper`, which closes over `body` alone. -/
def task (body : TaskBody) (env : RegEnv) (nextOid : Nat)
    (reg : List (Nat × Nat)) : TaskCallResult :=
  let t : Task := ⟨nextOid, body⟩
  let r := t.register env reg
  ⟨t, r.trace, r.registry, r.result, nextOid + 1⟩

/-! ### Concrete fixtures used by witnesses and counterexamples -/

/-- A task body that returns `None`, declared as `mod.hello`. -/
def bodyHello : TaskBody := ⟨"mod", "hello", fun _ _ _ _ => .returns none⟩

/-- A task body that returns a non-`None` value. -/
def bodyBad : TaskBody := ⟨"mod", "bad", fun _ _ _ _ => .returns (some 5)⟩

/-- A task body that raises exception code `3`. -/
def bodyBoom : TaskBody := ⟨"mod", "boom", fun _ _ _ _ => .raises 3⟩

/-- A preamble output with three regions `70, 71, 72`. -/
def pre3 : PreambleOut := ⟨1, fun i => 70 + i, 3, 2, 4⟩

/-- A preamble output with zero regions. -/
def pre0 : PreambleOut := ⟨1, fun i => 70 + i, 0, 2, 4⟩

/-! ### Wrapper adapter theorems -/

/-- C2: whenever the task body returns `None`, the wrapper calls the
native postamble exactly once, after the body call and before returning
control (it is the final event of the trace and the outcome is normal),
with the runtime and context handles obtained from the preamble, a null
result pointer and zero result length. -/
theorem postamble_once_on_success (body : TaskBody) (pre : PreambleOut)
    (args : List Nat) (proc : Nat)
    (h : body.fn pre.task (builtRegions pre) pre.context pre.runtime =
      .returns none) :
    make_wrapper body pre args proc =
      ([.preamble args proc,
        .bodyCall pre.task (builtRegions pre) pre.context pre.runtime,
        .postamble pre.runtime pre.context 0 0], .ok ()) ∧
    (make_wrapper body pre args proc).1.countP (fun ev => ev.isPostamble) = 1 := by
  simp [make_wrapper, h, WEvent.isPostamble, List.countP_cons]

/-- Witness for `postamble_once_on_success` at `bodyHello` with three
regions. -/
theorem postamble_once_on_success_witness :
    make_wrapper bodyHello pre3 [9] 5 =
      ([.preamble [9] 5, .bodyCall 1 [70, 71, 72] 2 4, .postamble 4 2 0 0],
       .ok ()) ∧
    (make_wrapper bodyHello pre3 [9] 5).1.countP (fun ev => ev.isPostamble) = 1 :=
  postamble_once_on_success bodyHello pre3 [9] 5 rfl

/-- C3: the region sequence passed to the task body (the second trace
event) has length exactly `regionCount` as reported by the preamble and
preserves the native region array's index order; in particular for
`regionCount = 0` the body receives the empty sequence, and when it then
returns `None` the wrapper still completes normally and calls the
postamble with null result and zero length. -/
theorem regions_preserve_order (body : TaskBody) (pre : PreambleOut)
    (args : List Nat) (proc : Nat) :
    ∃ rs, (make_wrapper body pre args proc).1.get? 1 =
        some (.bodyCall pre.task rs pre.context pre.runtime) ∧
      rs.length = pre.numRegions ∧
      (∀ i, (h : i < rs.length) → rs.get ⟨i, h⟩ = pre.rawRegions i) ∧
      (pre.numRegions = 0 → rs = []) ∧
      (pre.numRegions = 0 →
        body.fn pre.task [] pre.context pre.runtime = .returns none →
        (make_wrapper body pre args proc).2 = .ok () ∧
        WEvent.postamble pre.runtime pre.context 0 0 ∈
          (make_wrapper body pre args proc).1) := by
  refine ⟨builtRegions pre, ?_, ?_, ?_, ?_, ?_⟩
  · rcases hb : body.fn pre.task (builtRegions pre) pre.context pre.runtime with
      (_ | v) | e <;> simp [make_wrapper, hb]
  · simp [builtRegions]
  · intro i h
    simp [builtRegions]
  · intro h0
    simp [builtRegions, h0]
  · intro h0 hb
    have hbr : builtRegions pre = [] := by simp [builtRegions, h0]
    simp [make_wrapper, hbr, hb]

/-- Witness for `regions_preserve_order`: the zero-region scenario at
`bodyHello`. -/
theorem regions_preserve_order_witness :
    ∃ rs, (make_wrapper bodyHello pre0 [] 5).1.get? 1 =
        some (.bodyCall 1 rs 2 4) ∧
      rs.length = 0 ∧
      (∀ i, (h : i < rs.length) → rs.get ⟨i, h⟩ = pre0.rawRegions i) ∧
      (pre0.numRegions = 0 → rs = []) ∧
      (pre0.numRegions = 0 →
        bodyHello.fn 1 [] 2 4 = .returns none →
        (make_wrapper bodyHello pre0 [] 5).2 = .ok () ∧
        WEvent.postamble 4 2 0 0 ∈ (make_wrapper bodyHello pre0 [] 5).1) :=
  regions_preserve_order bodyHello pre0 [] 5

/-- C4: whenever the task body raises, the exception propagates out of
the wrapper (the outcome is that exception) and no postamble event occurs
in the trace. -/
theorem body_exception_skips_postamble (body : TaskBody) (pre : PreambleOut)
    (args : List Nat) (proc : Nat) (e : Nat)
    (h : body.fn pre.task (builtRegions pre) pre.context pre.runtime =
      .raises e) :
    (make_wrapper body pre args proc).2 = .error (.bodyError e) ∧
    ∀ ev ∈ (make_wrapper body pre args proc).1, ev.isPostamble = false := by
  simp [make_wrapper, h, WEvent.isPostamble]

/-- Witness for `body_exception_skips_postamble` at `bodyBoom`. -/
theorem body_exception_skips_postamble_witness :
    (make_wrapper bodyBoom pre3 [] 5).2 = .error (.bodyError 3) ∧
    ∀ ev ∈ (make_wrapper bodyBoom pre3 [] 5).1, ev.isPostamble = false :=
  body_exception_skips_postamble bodyBoom pre3 [] 5 3 rfl

/-- C5: whenever the task body returns a non-`None` value, the wrapper's
assert fails — the invocation ends with `AssertionError` and no postamble
event occurs in the trace. -/
theorem nonempty_return_fails_before_postamble (body : TaskBody)
    (pre : PreambleOut) (args : List Nat) (proc : Nat) (v : Nat)
    (h : body.fn pre.task (builtRegions pre) pre.context pre.runtime =
      .returns (some v)) :
    (make_wrapper body pre args proc).2 = .error .assertionError ∧
    ∀ ev ∈ (make_wrapper body pre args proc).1, ev.isPostamble = false := by
  simp [make_wrapper, h, WEvent.isPostamble]

/-- Witness for `nonempty_return_fails_before_postamble` at `bodyBad`. -/
theorem nonempty_return_fails_before_postamble_witness :
    (make_wrapper bodyBad pre3 [] 5).2 = .error .assertionError ∧
    ∀ ev ∈ (make_wrapper bodyBad pre3 [] 5).1, ev.isPostamble = false :=
  nonempty_return_fails_before_postamble bodyBad pre3 [] 5 5 rfl

/-- C8: in every invocation the wrapper's first native action is the
preamble call, and the second event is the call into the original task
body with exactly the four positional arguments obtained from the
preamble — task descriptor, region sequence, context handle, runtime
handle — in that order. -/
theorem preamble_first_then_body (body : TaskBody) (pre : PreambleOut)
    (args : List Nat) (proc : Nat) :
    (make_wrapper body pre args proc).1.take 2 =
      [.preamble args proc,
       .bodyCall pre.task (builtRegions pre) pre.context pre.runtime] := by
  rcases hb : body.fn pre.task (builtRegions pre) pre.context pre.runtime with
    (_ | v) | e <;> simp [make_wrapper, hb]

/-! ### Registrar fixtures -/

/-- A native environment in which every call succeeds: constraint-set
handles `10` and `11`, runtime handle `20`, task id `42`. -/
def envOK : RegEnv :=
  ⟨5, .ok 10, fun _ _ => .ok (), .ok 11, .ok 20, fun _ => .ok 42,
   fun _ => .ok (), fun _ => .ok ()⟩

/-- A native environment in which the register-task-variant call raises
`nativeError 7` and every other call succeeds. -/
def envRegFail : RegEnv :=
  ⟨5, .ok 10, fun _ _ => .ok (), .ok 11, .ok 20,
   fun _ => .error (.nativeError 7), fun _ => .ok (), fun _ => .ok ()⟩

/-! ### Shared registrar lemmas -/

/-- Characterization of `Task.register` by case analysis on the native
environment: a successful call appends exactly `(t.oid, tid)` and its
trace is the full straight-line call sequence ending in the two destroys;
a raising call leaves the registry unchanged; and any register-variant
event in the trace carries exactly the argument tuple `mkArgs`. -/
theorem register_char (t : Task) (env : RegEnv) (reg : List (Nat × Nat)) :
    (∀ tid, (t.register env reg).result = .ok tid →
      (t.register env reg).registry = (t.oid, tid) :: reg ∧
      ∃ ec lc rt, (t.register env reg).trace =
        [.execCreate, .addProc ec env.pyProc, .layoutCreate, .getRuntime,
         .registerVariant (mkArgs t rt ec lc), .execDestroy ec,
         .layoutDestroy lc]) ∧
    (∀ e, (t.register env reg).result = .error e →
      (t.register env reg).registry = reg) ∧
    (∀ a, REvent.registerVariant a ∈ (t.register env reg).trace →
      ∃ rt ec lc, a = mkArgs t rt ec lc) := by
  obtain ⟨p, ecr, ap, lcr, gr, rv, ed, ld⟩ := env
  by_cases hc : t.oid ∈ reg.map Prod.fst
  · refine ⟨?_, ?_, ?_⟩ <;> simp [Task.register, hc]
  · cases ecr with
    | error e =>
        refine ⟨?_, ?_, ?_⟩ <;> simp [Task.register, hc]
    | ok ec =>
      cases hap : ap ec p with
      | error e =>
          refine ⟨?_, ?_, ?_⟩ <;> simp [Task.register, hc, hap]
      | ok u =>
        cases lcr with
        | error e =>
            refine ⟨?_, ?_, ?_⟩ <;> simp [Task.register, hc, hap]
        | ok lc =>
          cases gr with
          | error e =>
              refine ⟨?_, ?_, ?_⟩ <;> simp [Task.register, hc, hap]
          | ok rt =>
            cases hrv : rv (mkArgs t rt ec lc) with
            | error e =>
                refine ⟨?_, ?_, ?_⟩ <;> simp [Task.register, hc, hap, hrv]
            | ok tid =>
              cases hed : ed ec with
              | error e =>
                  refine ⟨?_, ?_, ?_⟩ <;> simp [Task.register, hc, hap, hrv, hed]
              | ok u2 =>
                cases hld : ld lc with
                | error e =>
                    refine ⟨?_, ?_, ?_⟩ <;>
                      simp [Task.register, hc, hap, hrv, hed, hld]
                | ok u3 =>
                    refine ⟨?_, ?_, ?_⟩ <;>
                      simp [Task.register, hc, hap, hrv, hed, hld]
                    exact ⟨rt, rfl⟩

/-- A successful `register` call appends exactly the one entry
`(t.oid, tid)` to the registry. -/
theorem register_ok_registry (t : Task) (env : RegEnv)
    (reg : List (Nat × Nat)) (tid : Nat)
    (h : (t.register env reg).result = .ok tid) :
    (t.register env reg).registry = (t.oid, tid) :: reg :=
  ((register_char t env reg).1 tid h).1

/-- A `register` call that raises leaves the registry unchanged. -/
theorem register_error_registry (t : Task) (env : RegEnv)
    (reg : List (Nat × Nat)) (e : PyErr)
    (h : (t.register env reg).result = .error e) :
    (t.register env reg).registry = reg :=
  (register_char t env reg).2.1 e h

/-! ### Registrar theorems -/

/-- C1 counterexample: the public entry point `task` constructs a fresh
`Task` object per call, and the registry is keyed by object identity, so
invoking `task` twice with the same body (`mod.hello` both times, under
an all-successful native environment, starting from the initial empty
registry) succeeds on the second call as well — it does not fail with the
duplicate-registration assertion. -/
theorem double_decorator_does_not_fail :
    (task bodyHello envOK 0 _local_tasks).result = .ok 42 ∧
    (task bodyHello envOK (task bodyHello envOK 0 _local_tasks).nextOid
        (task bodyHello envOK 0 _local_tasks).registry).result = .ok 42 ∧
    (task bodyHello envOK (task bodyHello envOK 0 _local_tasks).nextOid
        (task bodyHello envOK 0 _local_tasks).registry).result ≠
      .error .assertionError := by
  refine ⟨rfl, rfl, ?_⟩
  rw [show (task bodyHello envOK (task bodyHello envOK 0 _local_tasks).nextOid
      (task bodyHello envOK 0 _local_tasks).registry).result = Except.ok 42
    from rfl]
  simp

/-- C1 (amended): registration is guarded per `Task` object, not per
(module, name) identity: after a `register` call on a `Task` object
succeeds and returns a handle, calling `register` a second time on that
same object fails fast with `AssertionError`.  The public entry point
`task` constructs a fresh `Task` object per call, so invoking it twice
with the same body does not trip the guard. -/
theorem reregister_same_task_fails (t : Task) (env : RegEnv)
    (reg : List (Nat × Nat)) (tid : Nat)
    (h : (t.register env reg).result = .ok tid) :
    (t.register env ((t.register env reg).registry)).result =
      .error .assertionError := by
  rw [register_ok_registry t env reg tid h]
  simp [Task.register]

/-- Witness for `reregister_same_task_fails`: a concrete first
registration that succeeds with handle `42`, after which re-registering
the same object asserts. -/
theorem reregister_same_task_fails_witness :
    (Task.register ⟨0, bodyHello⟩ envOK
        ((Task.register ⟨0, bodyHello⟩ envOK _local_tasks).registry)).result =
      .error .assertionError :=
  reregister_same_task_fails ⟨0, bodyHello⟩ envOK _local_tasks 42 rfl

/-- C6 counterexample: when the native register-task-variant call raises,
`register` (straight-line code, no `try`/`finally`) propagates the
exception immediately: the trace ends at the register-variant call and
contains no constraint-set destroy event at all. -/
theorem register_failure_skips_destroys :
    ((⟨0, bodyHello⟩ : Task).register envRegFail _local_tasks).result =
      .error (.nativeError 7) ∧
    ((⟨0, bodyHello⟩ : Task).register envRegFail _local_tasks).trace =
      [.execCreate, .addProc 10 5, .layoutCreate, .getRuntime,
       .registerVariant (mkArgs ⟨0, bodyHello⟩ 20 10 11)] ∧
    ((⟨0, bodyHello⟩ : Task).register envRegFail _local_tasks).trace.countP
      (fun ev => ev.isDestroy) = 0 := by
  exact ⟨rfl, rfl, rfl⟩

/-- C6 (amended): the two constraint sets are destroyed immediately after
the native registration call returns normally (the trace of a successful
`register` ends with the register-variant call followed by the two
destroys); when a native call raises mid-registration the exception
propagates at once and the remaining destroy calls are skipped — there is
no `try`/`finally` guaranteeing release on failure. -/
theorem destroys_after_successful_register (t : Task) (env : RegEnv)
    (reg : List (Nat × Nat)) (tid : Nat)
    (h : (t.register env reg).result = .ok tid) :
    ∃ ec lc rt, (t.register env reg).trace =
      [.execCreate, .addProc ec env.pyProc, .layoutCreate, .getRuntime,
       .registerVariant (mkArgs t rt ec lc), .execDestroy ec,
       .layoutDestroy lc] :=
  ((register_char t env reg).1 tid h).2

/-- Witness for `destroys_after_successful_register` at a concrete
successful registration. -/
theorem destroys_after_successful_register_witness :
    ∃ ec lc rt, ((⟨0, bodyHello⟩ : Task).register envOK _local_tasks).trace =
      [.execCreate, .addProc ec envOK.pyProc, .layoutCreate, .getRuntime,
       .registerVariant (mkArgs ⟨0, bodyHello⟩ rt ec lc), .execDestroy ec,
       .layoutDestroy lc] :=
  destroys_after_successful_register ⟨0, bodyHello⟩ envOK _local_tasks 42 rfl

/-- C7: every register-variant call made by `register` passes the
all-false config options (leaf, inner, idempotent), the
`AUTO_GENERATE_ID` sentinel rather than a caller-chosen task id, the
global flag set to false, and the variant name formed by joining the
body's declaring module and its own name with a `"."` separator. -/
theorem register_variant_call_args (t : Task) (env : RegEnv)
    (reg : List (Nat × Nat)) (a : RegisterVariantArgs)
    (h : REvent.registerVariant a ∈ (t.register env reg).trace) :
    a.options = ⟨false, false, false⟩ ∧ a.task_id = AUTO_GENERATE_ID ∧
    a.globalFlag = false ∧
    a.variant_name = t.body.module ++ "." ++ t.body.name ∧
    a.module_name = t.body.module ∧ a.function_name = t.body.name := by
  obtain ⟨rt, ec, lc, rfl⟩ := (register_char t env reg).2.2 a h
  exact ⟨rfl, rfl, rfl, rfl, rfl, rfl⟩

/-- Witness for `register_variant_call_args`: the concrete registration
of `mod.hello` makes a register-variant call, and its arguments are as
claimed. -/
theorem register_variant_call_args_witness :
    (REvent.registerVariant (mkArgs ⟨0, bodyHello⟩ 20 10 11) ∈
      ((⟨0, bodyHello⟩ : Task).register envOK _local_tasks).trace) ∧
    (mkArgs ⟨0, bodyHello⟩ 20 10 11).options = ⟨false, false, false⟩ ∧
    (mkArgs ⟨0, bodyHello⟩ 20 10 11).task_id = AUTO_GENERATE_ID ∧
    (mkArgs ⟨0, bodyHello⟩ 20 10 11).globalFlag = false ∧
    (mkArgs ⟨0, bodyHello⟩ 20 10 11).variant_name = "mod" ++ "." ++ "hello" :=
  ⟨by decide,
   (register_variant_call_args ⟨0, bodyHello⟩ envOK _local_tasks
      (mkArgs ⟨0, bodyHello⟩ 20 10 11) (by decide)).1,
   (register_variant_call_args ⟨0, bodyHello⟩ envOK _local_tasks
      (mkArgs ⟨0, bodyHello⟩ 20 10 11) (by decide)).2.1,
   (register_variant_call_args ⟨0, bodyHello⟩ envOK _local_tasks
      (mkArgs ⟨0, bodyHello⟩ 20 10 11) (by decide)).2.2.1,
   (register_variant_call_args ⟨0, bodyHello⟩ envOK _local_tasks
      (mkArgs ⟨0, bodyHello⟩ 20 10 11) (by decide)).2.2.2.1⟩

/-- C9: the registry `_local_tasks` starts empty at process start;
`register` (the only operation of the binding that touches it — the
wrapper takes no registry at all) never removes an entry: on success it
adds exactly the one entry mapping the registered task to its handle,
and on failure it leaves the registry unchanged, so the registry grows
monotonically over the process lifetime. -/
theorem registry_monotone :
    _local_tasks = [] ∧
    ∀ (t : Task) (env : RegEnv) (reg : List (Nat × Nat)),
      (∀ p, p ∈ reg → p ∈ (t.register env reg).registry) ∧
      (∀ tid, (t.register env reg).result = .ok tid →
        (t.register env reg).registry = (t.oid, tid) :: reg) ∧
      (∀ e, (t.register env reg).result = .error e →
        (t.register env reg).registry = reg) := by
  refine ⟨rfl, fun t env reg => ⟨?_, ?_, ?_⟩⟩
  · intro p hp
    rcases hres : (t.register env reg).result with e | tid
    · rw [register_error_registry t env reg e hres]; exact hp
    · rw [register_ok_registry t env reg tid hres]
      exact List.mem_cons_of_mem _ hp
  · exact fun tid h => register_ok_registry t env reg tid h
  · exact fun e h => register_error_registry t env reg e h

/-- Witness for `registry_monotone`: a pre-existing entry survives a
further registration. -/
theorem registry_monotone_witness :
    ((0, 42) : Nat × Nat) ∈
      ((⟨1, bodyHello⟩ : Task).register envOK [(0, 42)]).registry :=
  (registry_monotone.2 ⟨1, bodyHello⟩ envOK [(0, 42)]).1 (0, 42) (by decide)

/-- C10: registration is atomic with respect to the registry: if any
native call made during `register` raises, the exception propagates with
the registry left exactly as it was — no entry is added for the failed
registration. -/
theorem register_atomic_on_error (t : Task) (env : RegEnv)
    (reg : List (Nat × Nat)) (e : PyErr)
    (h : (t.register env reg).result = .error e) :
    (t.register env reg).registry = reg :=
  register_error_registry t env reg e h

/-- Witness for `register_atomic_on_error`: the registry is unchanged
when the native register-variant call raises. -/
theorem register_atomic_on_error_witness :
    ((⟨0, bodyHello⟩ : Task).register envRegFail _local_tasks).registry =
      _local_tasks :=
  register_atomic_on_error ⟨0, bodyHello⟩ envRegFail _local_tasks
    (.nativeError 7) rfl

end LegionPy
